import Mathlib

/-!
Verification of the call-flow dispatcher in src/main.py (a Flask app).

The embedding models Python dictionaries as ordered association lists
(insertion order preserved, unique keys in practice), JSON values as an
inductive type, and the per-request handler as a function producing an
ordered trace of effects (state-store writes followed by the provider
invocation).  Uncaught Python exceptions are modelled by error values.
-/

/-- JSON values, as produced by json.loads / consumed by json.dumps. -/
inductive Json where
  | null : Json
  | bool (b : Bool) : Json
  | num (n : Int) : Json
  | str (s : String) : Json
  | arr (xs : List Json) : Json
  | obj (fields : List (String × Json)) : Json

/-- Python dict lookup, d.get(k): first binding of the key, if any. -/
def dictLookup {α : Type} : List (String × α) → String → Option α
  | [], _ => none
  | (k1, v1) :: rest, k => if k1 = k then some v1 else dictLookup rest k

/-- Python dict assignment d[k] = v: replace the binding in place if the key
is present, otherwise append the new binding (insertion order). -/
def dictInsert {α : Type} : List (String × α) → String → α → List (String × α)
  | [], k, v => [(k, v)]
  | (k1, v1) :: rest, k, v =>
      if k1 = k then (k, v) :: rest else (k1, v1) :: dictInsert rest k v

/-- Python dict.update(p): assign every binding of p into the dict in order. -/
def dict_update {α : Type} (c p : List (String × α)) : List (String × α) :=
  p.foldl (fun acc kv => dictInsert acc kv.1 kv.2) c

theorem dictLookup_dictInsert_self {α : Type} (d : List (String × α)) (k : String) (v : α) :
    dictLookup (dictInsert d k v) k = some v := by
  induction d with
  | nil => simp [dictInsert, dictLookup]
  | cons hd tl ih =>
      obtain ⟨k1, v1⟩ := hd
      by_cases h : k1 = k
      · simp [dictInsert, h, dictLookup]
      · simp [dictInsert, h, dictLookup, ih]

theorem dictLookup_dictInsert_ne {α : Type} (d : List (String × α)) (k k2 : String) (v : α)
    (h : k2 ≠ k) : dictLookup (dictInsert d k v) k2 = dictLookup d k2 := by
  have hne : ¬ k = k2 := fun hh => h hh.symm
  induction d with
  | nil => simp [dictInsert, dictLookup, hne]
  | cons hd tl ih =>
      obtain ⟨k1, v1⟩ := hd
      by_cases h1 : k1 = k
      · subst h1
        simp [dictInsert, dictLookup, hne]
      · simp [dictInsert, h1, dictLookup, ih]

theorem dictInsert_eq_self {α : Type} (d : List (String × α)) (k : String) (v : α)
    (h : dictLookup d k = some v) : dictInsert d k v = d := by
  induction d with
  | nil => simp [dictLookup] at h
  | cons hd tl ih =>
      obtain ⟨k1, v1⟩ := hd
      by_cases h1 : k1 = k
      · simp [dictLookup, h1] at h
        simp [dictInsert, h1, h]
      · simp [dictLookup, h1] at h
        simp [dictInsert, h1, ih h]

theorem dictLookup_dict_update_not_mem {α : Type} (p : List (String × α)) (d : List (String × α))
    (k : String) (h : k ∉ p.map Prod.fst) :
    dictLookup (dict_update d p) k = dictLookup d k := by
  induction p generalizing d with
  | nil => rfl
  | cons hd tl ih =>
      simp only [List.map_cons, List.mem_cons] at h
      push_neg at h
      show dictLookup (dict_update (dictInsert d hd.1 hd.2) tl) k = dictLookup d k
      rw [ih (dictInsert d hd.1 hd.2) h.2]
      exact dictLookup_dictInsert_ne d hd.1 k hd.2 h.1

/-- A node of the conversation graph, one element of pathways.json.
Optional fields model JSON keys that may be absent. -/
structure Block where
  instruction : Option String
deriving Repr, DecidableEq

structure Destination where
  stepName : Option String
deriving Repr, DecidableEq

structure PathwayNode where
  name : String
  block : Option Block
  destinations : List Destination
deriving Repr, DecidableEq

/-- load_pathways: dict comprehension over the raw node list, keyed by name. -/
def load_pathways (raw : List PathwayNode) : List (String × PathwayNode) :=
  raw.foldl (fun d node => dictInsert d node.name node) []

abbrev FlowNodes := List (String × PathwayNode)

/-- The call-state store: the contents of call_states.json, a mapping from
call id to current node name. -/
abbrev CallStates := List (String × String)

structure ChatMessage where
  role : String
  content : String
deriving Repr, DecidableEq

structure ModelConfig where
  provider : String
  model : String
  messages : List ChatMessage
deriving Repr

/-- assistant_config.  The forwardingPhoneNumber key is written by the
bootstrap and never deleted by the update route, so it is modelled as an
always-present field; the empty string stands for every Python-falsy value
(empty string or null), which is exactly what both uses of the field test. -/
structure AssistantConfig where
  model : ModelConfig
  forwardingPhoneNumber : String
deriving Repr

/-- The default assistant configuration written at bootstrap (lines 31-43). -/
def default_config : AssistantConfig :=
  { model :=
      { provider := "openai"
        model := "gpt-4o"
        messages :=
          [{ role := "system"
             content := "You are an assistant. When the user asks to be transferred, use the transferCall function." }] }
    forwardingPhoneNumber := "+40761983263" }

/-- The default pathway written at bootstrap (lines 49-61): one node named
start whose single destination is itself. -/
def default_pathways : List PathwayNode :=
  [{ name := "start"
     block := some { instruction := "You are a helpful assistant. Help users with their questions and transfer them when requested." }
     destinations := [{ stepName := some "start" }] }]

/-- The transferCall function descriptor (lines 106-119). -/
structure FunctionDescriptor where
  name : String
  description : String
  parameters : Json

def transferCallDescriptor : FunctionDescriptor :=
  { name := "transferCall"
    description := "Transfer the call to another phone number"
    parameters :=
      Json.obj
        [("type", Json.str "object"),
         ("properties",
          Json.obj
            [("destination",
              Json.obj
                [("type", Json.str "string"),
                 ("description", Json.str "The destination phone number to transfer the call to")])]),
         ("required", Json.arr [Json.str "destination"])] }

/-- get_available_functions (lines 102-121): the list is nonempty exactly
when the configured forwardingPhoneNumber is truthy. -/
def get_available_functions (cfg : AssistantConfig) : List FunctionDescriptor :=
  if cfg.forwardingPhoneNumber ≠ "" then [transferCallDescriptor] else []

/-- The openai_params dict assembled at lines 168-179.  The functions and
function_call keys are present only when the function list is nonempty;
an empty functions field together with function_call_auto = false models
their absence.  temperature 0.2 is represented as the rational 2/10. -/
structure OpenAIParams where
  model : String
  messages : List ChatMessage
  max_tokens : Nat
  temperature : Rat
  stream : Bool
  functions : List FunctionDescriptor
  function_call_auto : Bool

/-- Observable effects of one request, in program order: writes to the
call-state store, and the invocation of the provider capability. -/
inductive Event where
  | stateWrite (callId : String) (nodeName : String) : Event
  | providerCall (params : OpenAIParams) : Event

/-- The default node for an unseen call (line 91):
start if present in the graph, else the first-enumerated node.
none models the uncaught IndexError on an empty graph. -/
def default_node_name (flowNodes : FlowNodes) : Option String :=
  if (dictLookup flowNodes "start").isSome then some "start"
  else flowNodes.head?.map Prod.fst

/-- get_current_node_name (lines 86-95), with the store write it performs
returned as an event.  A stored empty string is Python-falsy and takes the
same branch as an absent key. -/
def get_current_node_name_events (flowNodes : FlowNodes) (states : CallStates)
    (callId : String) : Option (String × List Event) :=
  match dictLookup states callId with
  | some n =>
      if n = "" then
        (default_node_name flowNodes).map (fun d => (d, [Event.stateWrite callId d]))
      else some (n, [])
  | none =>
      (default_node_name flowNodes).map (fun d => (d, [Event.stateWrite callId d]))

/-- Apply one effect to the call-state store. -/
def applyEvent (states : CallStates) : Event → CallStates
  | Event.stateWrite c n => dictInsert states c n
  | Event.providerCall _ => states

def applyEvents (states : CallStates) (evs : List Event) : CallStates :=
  evs.foldl applyEvent states

/-- get_current_node_name as a state transformer: the returned node name
together with the store after the side effect. -/
def get_current_node_name (flowNodes : FlowNodes) (states : CallStates)
    (callId : String) : Option (String × CallStates) :=
  (get_current_node_name_events flowNodes states callId).map
    (fun p => (p.1, applyEvents states p.2))

/-- set_current_node_name (lines 97-100): unconditional overwrite. -/
def set_current_node_name (states : CallStates) (callId nodeName : String) : CallStates :=
  dictInsert states callId nodeName

/-- next_prompt (lines 156-157): current_node.get("block", default) followed by
block_data.get("instruction", default). -/
def nextPromptOf (node : PathwayNode) : String :=
  match node.block with
  | none => "No instructions available."
  | some b => b.instruction.getD "No instructions available."

/-- The sentence appended to the system message when a forwarding number is
configured (line 161). -/
def transferSentence : String :=
  "\nIf the user requests a transfer, you can transfer them using the transferCall function."

/-- system_message (lines 159-161). -/
def buildSystemMessage (cfg : AssistantConfig) (nextPrompt : String) : String :=
  if cfg.forwardingPhoneNumber ≠ "" then nextPrompt ++ transferSentence else nextPrompt

/-- messages (lines 163-166): the system message plus, when the request
carries a nonempty messages list, only its last element. -/
def buildMessages (systemMessage : String) (reqMessages : List ChatMessage) :
    List ChatMessage :=
  { role := "system", content := systemMessage } :: reqMessages.getLast?.toList

/-- openai_params (lines 168-179). -/
def build_openai_params (cfg : AssistantConfig) (messages : List ChatMessage)
    (streaming : Bool) : OpenAIParams :=
  let functions := get_available_functions cfg
  { model := cfg.model.model
    messages := messages
    max_tokens := 1000
    temperature := 2 / 10
    stream := streaming
    functions := functions
    function_call_auto := !functions.isEmpty }

/-- The advance step (lines 181-185): when the current node has destinations,
write the first destination stepName back to the store, but only when that
name is truthy and is a key of the graph. -/
def advanceEvents (flowNodes : FlowNodes) (callId : String) (node : PathwayNode) :
    List Event :=
  match node.destinations with
  | [] => []
  | d :: _ =>
      match d.stepName with
      | none => []
      | some n =>
          if n ≠ "" ∧ (dictLookup flowNodes n).isSome = true
          then [Event.stateWrite callId n] else []

/-- The body of a POST /chat/completions request. -/
structure ChatRequest where
  stream : Bool
  callId : String
  messages : List ChatMessage

/-- Uncaught Python exceptions of the route, surfaced by Flask as HTTP 500. -/
inductive DispatchError where
  | indexError : DispatchError
  | keyErrorNode (name : String) : DispatchError
deriving Repr, DecidableEq

/-- The /chat/completions handler (lines 147-195) as a trace of effects in
program order: the store write of get_current_node_name if any, then the
advance write if any, then the provider invocation.  indexError models the
uncaught IndexError on an empty graph inside get_current_node_name;
keyErrorNode models the uncaught KeyError of flow_nodes[current_node_name]
at line 154. -/
def openai_advanced_custom_llm_route (flowNodes : FlowNodes) (cfg : AssistantConfig)
    (states : CallStates) (req : ChatRequest) : Except DispatchError (List Event) :=
  match get_current_node_name_events flowNodes states req.callId with
  | none => Except.error DispatchError.indexError
  | some (currentNodeName, resolveEvents) =>
      match dictLookup flowNodes currentNodeName with
      | none => Except.error (DispatchError.keyErrorNode currentNodeName)
      | some currentNode =>
          let systemMessage := buildSystemMessage cfg (nextPromptOf currentNode)
          let messages := buildMessages systemMessage req.messages
          let params := build_openai_params cfg messages req.stream
          Except.ok (resolveEvents ++ advanceEvents flowNodes req.callId currentNode
            ++ [Event.providerCall params])

/-- The stored node for the request callId after the handler ran
(none when the handler raised). -/
def stored_after_dispatch (flowNodes : FlowNodes) (cfg : AssistantConfig)
    (states : CallStates) (req : ChatRequest) : Option (Option String) :=
  match openai_advanced_custom_llm_route flowNodes cfg states req with
  | Except.ok evs => some (dictLookup (applyEvents states evs) req.callId)
  | Except.error _ => none

/-- The store writes of a trace, in order. -/
def writesOf (evs : List Event) : List (String × String) :=
  evs.filterMap (fun e =>
    match e with
    | Event.stateWrite c n => some (c, n)
    | Event.providerCall _ => none)

theorem resolve_lookup (flowNodes : FlowNodes) (states : CallStates) (callId cur : String)
    (revs : List Event)
    (hres : get_current_node_name_events flowNodes states callId = some (cur, revs)) :
    dictLookup (applyEvents states revs) callId = some cur := by
  unfold get_current_node_name_events at hres
  cases hst : dictLookup states callId with
  | none =>
      rw [hst] at hres
      cases hdef : default_node_name flowNodes with
      | none => rw [hdef] at hres; simp at hres
      | some d =>
          rw [hdef] at hres
          simp at hres
          obtain ⟨h1, h2⟩ := hres
          subst h1
          subst h2
          simp [applyEvents, applyEvent, dictLookup_dictInsert_self]
  | some n =>
      rw [hst] at hres
      by_cases hn : n = ""
      · subst hn
        simp only [if_pos rfl] at hres
        cases hdef : default_node_name flowNodes with
        | none => rw [hdef] at hres; simp at hres
        | some d =>
            rw [hdef] at hres
            simp at hres
            obtain ⟨h1, h2⟩ := hres
            subst h1
            subst h2
            simp [applyEvents, applyEvent, dictLookup_dictInsert_self]
      · simp only [if_neg hn] at hres
        simp at hres
        obtain ⟨h1, h2⟩ := hres
        subst h1
        subst h2
        simpa [applyEvents, applyEvent] using hst

theorem route_eq (flowNodes : FlowNodes) (cfg : AssistantConfig) (states : CallStates)
    (req : ChatRequest) (cur : String) (revs : List Event) (node : PathwayNode)
    (hres : get_current_node_name_events flowNodes states req.callId = some (cur, revs))
    (hnode : dictLookup flowNodes cur = some node) :
    openai_advanced_custom_llm_route flowNodes cfg states req =
      Except.ok (revs ++ advanceEvents flowNodes req.callId node ++
        [Event.providerCall (build_openai_params cfg
          (buildMessages (buildSystemMessage cfg (nextPromptOf node)) req.messages)
          req.stream)]) := by
  unfold openai_advanced_custom_llm_route
  rw [hres]
  dsimp only
  rw [hnode]

theorem stored_after_eq (flowNodes : FlowNodes) (cfg : AssistantConfig)
    (states : CallStates) (req : ChatRequest) (cur : String) (revs : List Event)
    (node : PathwayNode)
    (hres : get_current_node_name_events flowNodes states req.callId = some (cur, revs))
    (hnode : dictLookup flowNodes cur = some node) :
    stored_after_dispatch flowNodes cfg states req =
      some (dictLookup (applyEvents (applyEvents states revs)
        (advanceEvents flowNodes req.callId node)) req.callId) := by
  unfold stored_after_dispatch
  rw [route_eq flowNodes cfg states req cur revs node hres hnode]
  simp [applyEvents, List.foldl_append, applyEvent]

/-- Claim C2 (confirmed): for a callId absent from the call-state store,
get_current_node_name returns the default node (start when that name is in
the graph, else the first-enumerated node), persists the assignment, and a
subsequent call with the same callId returns the same node and leaves the
store unchanged. -/
theorem unseen_call_default (flowNodes : FlowNodes) (states : CallStates)
    (callId : String) (d : String)
    (hunseen : dictLookup states callId = none)
    (hdef : default_node_name flowNodes = some d) :
    get_current_node_name flowNodes states callId
      = some (d, dictInsert states callId d) ∧
    ((dictLookup flowNodes "start").isSome = true → d = "start") ∧
    (dictLookup flowNodes "start" = none → flowNodes.head?.map Prod.fst = some d) ∧
    dictLookup (dictInsert states callId d) callId = some d ∧
    get_current_node_name flowNodes (dictInsert states callId d) callId
      = some (d, dictInsert states callId d) := by
  refine ⟨?_, ?_, ?_, ?_, ?_⟩
  · simp [get_current_node_name, get_current_node_name_events, hunseen, hdef,
      applyEvents, applyEvent]
  · intro hs
    simp [default_node_name, hs] at hdef
    exact hdef.symm
  · intro hs
    simpa [default_node_name, hs] using hdef
  · exact dictLookup_dictInsert_self states callId d
  · by_cases hd : d = ""
    · subst hd
      simp [get_current_node_name, get_current_node_name_events,
        dictLookup_dictInsert_self, hdef, applyEvents, applyEvent,
        dictInsert_eq_self _ _ _ (dictLookup_dictInsert_self states callId "")]
    · simp [get_current_node_name, get_current_node_name_events,
        dictLookup_dictInsert_self, hd, applyEvents, applyEvent]

theorem unseen_call_default_witness :
    get_current_node_name (load_pathways default_pathways) [] "abc"
      = some ("start", [("abc", "start")]) ∧
    dictLookup [("abc", "start")] "abc" = some "start" ∧
    get_current_node_name (load_pathways default_pathways) [("abc", "start")] "abc"
      = some ("start", [("abc", "start")]) := by
  have h := unseen_call_default (load_pathways default_pathways) [] "abc" "start" rfl rfl
  exact ⟨h.1, h.2.2.2.1, h.2.2.2.2⟩

/-- Claim C9 (confirmed): a stored empty-string node name is Python-falsy and
is treated exactly like an unseen callId: the stored value is discarded, the
default node is computed, persisted and returned. -/
theorem falsy_state_treated_unseen (flowNodes : FlowNodes) (states : CallStates)
    (callId : String) (d : String)
    (hstored : dictLookup states callId = some "")
    (hdef : default_node_name flowNodes = some d) :
    get_current_node_name flowNodes states callId
      = some (d, dictInsert states callId d) ∧
    dictLookup (dictInsert states callId d) callId = some d := by
  constructor
  · simp [get_current_node_name, get_current_node_name_events, hstored, hdef,
      applyEvents, applyEvent]
  · exact dictLookup_dictInsert_self states callId d

theorem falsy_state_treated_unseen_witness :
    get_current_node_name (load_pathways default_pathways) [("x", "")] "x"
      = some ("start", [("x", "start")]) ∧
    dictLookup [("x", "start")] "x" = some "start" :=
  falsy_state_treated_unseen (load_pathways default_pathways) [("x", "")] "x" "start" rfl rfl

/-- Claim C1, amended (corrected): for a dispatched request whose current node
has a nonempty destinations list, the stored node after dispatch equals the
first destination stepName if that name is truthy (non-empty) and is a key of
the graph; otherwise (stepName absent, empty, or naming no graph node) no
advance write is emitted and the stored node remains the resolved current
node.  The advance writes do not depend on the request messages or stream
flag, and the handler takes no provider output at all. -/
theorem advance_rule_amended (flowNodes : FlowNodes) (cfg : AssistantConfig)
    (states : CallStates) (req : ChatRequest) (cur : String) (revs : List Event)
    (node : PathwayNode) (d : Destination) (rest : List Destination)
    (hres : get_current_node_name_events flowNodes states req.callId = some (cur, revs))
    (hnode : dictLookup flowNodes cur = some node)
    (hdest : node.destinations = d :: rest) :
    (∀ s, d.stepName = some s → s ≠ "" → (dictLookup flowNodes s).isSome = true →
        stored_after_dispatch flowNodes cfg states req = some (some s)) ∧
    ((d.stepName = none ∨ d.stepName = some "" ∨
        (∃ s, d.stepName = some s ∧ dictLookup flowNodes s = none)) →
      advanceEvents flowNodes req.callId node = [] ∧
      stored_after_dispatch flowNodes cfg states req = some (some cur)) ∧
    (∀ msgs2 strm2,
      (openai_advanced_custom_llm_route flowNodes cfg states
          { stream := strm2, callId := req.callId, messages := msgs2 }).map writesOf
        = (openai_advanced_custom_llm_route flowNodes cfg states req).map writesOf) := by
  refine ⟨?_, ?_, ?_⟩
  · intro s hs hne hmem
    rw [stored_after_eq flowNodes cfg states req cur revs node hres hnode]
    have hadv : advanceEvents flowNodes req.callId node = [Event.stateWrite req.callId s] := by
      simp [advanceEvents, hdest, hs, hne, hmem]
    rw [hadv]
    simp [applyEvents, applyEvent, dictLookup_dictInsert_self]
  · intro hcase
    have hadv : advanceEvents flowNodes req.callId node = [] := by
      rcases hcase with h | h | ⟨s, hs, hnone⟩
      · simp [advanceEvents, hdest, h]
      · simp [advanceEvents, hdest, h]
      · simp [advanceEvents, hdest, hs, hnone]
    refine ⟨hadv, ?_⟩
    rw [stored_after_eq flowNodes cfg states req cur revs node hres hnode, hadv]
    simpa [applyEvents] using
      congrArg some (resolve_lookup flowNodes states req.callId cur revs hres)
  · intro msgs2 strm2
    have hres2 : get_current_node_name_events flowNodes states
        (ChatRequest.mk strm2 req.callId msgs2).callId = some (cur, revs) := hres
    rw [route_eq flowNodes cfg states (ChatRequest.mk strm2 req.callId msgs2) cur revs node
          hres2 hnode,
        route_eq flowNodes cfg states req cur revs node hres hnode]
    simp [Except.map, writesOf, List.filterMap_append, List.filterMap_cons]

/-- The graph used to refute the literal form of claim C1: a node named "a"
whose first destination stepName is the empty string, together with a node
whose name is the empty string.  The empty string is a key of the graph, yet
line 183 of src/main.py treats it as falsy and does not advance. -/
def c1NodeA : PathwayNode :=
  { name := "a"
    block := some { instruction := some "hi" }
    destinations := [{ stepName := some "" }] }

def c1NodeEmpty : PathwayNode :=
  { name := ""
    block := none
    destinations := [] }

def c1Flow : FlowNodes := [("a", c1NodeA), ("", c1NodeEmpty)]

def c1States : CallStates := [("cid", "a")]

def c1Req : ChatRequest := { stream := false, callId := "cid", messages := [] }

/-- Claim C1 counterexample: the current node "a" has a nonempty destinations
list whose first entry has stepName "", and "" is a key of the graph; the
claim as stated then requires the stored node after dispatch to equal "",
but the code leaves it at "a". -/
theorem advance_iff_counterexample :
    (dictLookup c1Flow "a").map PathwayNode.destinations
        = some [{ stepName := some "" }] ∧
    (dictLookup c1Flow "").isSome = true ∧
    stored_after_dispatch c1Flow default_config c1States c1Req = some (some "a") ∧
    ("a" : String) ≠ "" := by
  refine ⟨rfl, rfl, rfl, by decide⟩

def w1NodeStart : PathwayNode :=
  { name := "start"
    block := some { instruction := some "Hi" }
    destinations := [{ stepName := some "end" }] }

def w1NodeEnd : PathwayNode :=
  { name := "end"
    block := some { instruction := some "Bye" }
    destinations := [] }

def w1Flow : FlowNodes := [("start", w1NodeStart), ("end", w1NodeEnd)]

def w1Req : ChatRequest := { stream := false, callId := "x", messages := [] }

theorem advance_rule_amended_witness :
    stored_after_dispatch w1Flow default_config [] w1Req = some (some "end") ∧
    advanceEvents c1Flow "cid" c1NodeA = [] ∧
    stored_after_dispatch c1Flow default_config c1States c1Req = some (some "a") ∧
    (openai_advanced_custom_llm_route w1Flow default_config [] w1Req).map writesOf
      = (openai_advanced_custom_llm_route w1Flow default_config []
          { stream := false, callId := "x", messages := [] }).map writesOf := by
  have hpos := advance_rule_amended w1Flow default_config [] w1Req "start"
      [Event.stateWrite "x" "start"] w1NodeStart { stepName := some "end" } [] rfl rfl rfl
  have hneg := advance_rule_amended c1Flow default_config c1States c1Req "a" [] c1NodeA
      { stepName := some "" } [] rfl rfl rfl
  refine ⟨hpos.1 "end" rfl (by decide) rfl, (hneg.2.1 (Or.inr (Or.inl rfl))).1,
    (hneg.2.1 (Or.inr (Or.inl rfl))).2, ?_⟩
  exact (hpos.2.2 [] false).symm

/-- Claim C3 (confirmed): with a valid first destination, the handler trace is
the resolution write, then the advance write, then (last) the provider
invocation, so the advance write precedes the provider call and the store
already maps the callId to the next node at the moment the provider is
invoked; the handler takes no provider result, so the advance is not
contingent on the provider call succeeding. -/
theorem advance_before_provider (flowNodes : FlowNodes) (cfg : AssistantConfig)
    (states : CallStates) (req : ChatRequest) (cur : String) (revs : List Event)
    (node : PathwayNode) (d : Destination) (rest : List Destination) (s : String)
    (hres : get_current_node_name_events flowNodes states req.callId = some (cur, revs))
    (hnode : dictLookup flowNodes cur = some node)
    (hdest : node.destinations = d :: rest)
    (hstep : d.stepName = some s)
    (hne : s ≠ "")
    (hmem : (dictLookup flowNodes s).isSome = true) :
    openai_advanced_custom_llm_route flowNodes cfg states req =
      Except.ok ((revs ++ [Event.stateWrite req.callId s]) ++
        [Event.providerCall (build_openai_params cfg
          (buildMessages (buildSystemMessage cfg (nextPromptOf node)) req.messages)
          req.stream)]) ∧
    dictLookup (applyEvents states (revs ++ [Event.stateWrite req.callId s])) req.callId
      = some s := by
  have hadv : advanceEvents flowNodes req.callId node = [Event.stateWrite req.callId s] := by
    simp [advanceEvents, hdest, hstep, hne, hmem]
  constructor
  · rw [route_eq flowNodes cfg states req cur revs node hres hnode, hadv]
  · simp [applyEvents, List.foldl_append, applyEvent, dictLookup_dictInsert_self]

theorem advance_before_provider_witness :
    openai_advanced_custom_llm_route w1Flow default_config [] w1Req =
      Except.ok (([Event.stateWrite "x" "start"] ++ [Event.stateWrite "x" "end"]) ++
        [Event.providerCall (build_openai_params default_config
          (buildMessages (buildSystemMessage default_config (nextPromptOf w1NodeStart)) [])
          false)]) ∧
    dictLookup
      (applyEvents [] ([Event.stateWrite "x" "start"] ++ [Event.stateWrite "x" "end"])) "x"
      = some "end" :=
  advance_before_provider w1Flow default_config [] w1Req "start"
    [Event.stateWrite "x" "start"] w1NodeStart { stepName := some "end" } [] "end"
    rfl rfl rfl rfl (by decide) rfl

def c4Node : PathwayNode :=
  { name := "start", block := some { instruction := some "Hi" }, destinations := [] }

def c4Flow : FlowNodes := [("start", c4Node)]

def c4States : CallStates := [("abc", "ghost")]

def c4Req : ChatRequest := { stream := false, callId := "abc", messages := [] }

/-- Claim C4 (code_bug): with a stored node name that is not a key of the
graph, line 154 of src/main.py (flow_nodes[current_node_name]) raises an
uncaught KeyError, which Flask surfaces as HTTP 500 with an HTML body — not
the BadRequestError / HTTP 400 JSON error the spec requires.  The error type
of the handler has no bad-request variant at all, because the code contains
no such handling. -/
theorem unknown_node_uncaught_keyerror :
    openai_advanced_custom_llm_route c4Flow default_config c4States c4Req =
      Except.error (DispatchError.keyErrorNode "ghost") := rfl

/-- Claim C6 (confirmed): the transferCall descriptor is in the provider
parameters exactly when forwardingPhoneNumber is truthy; when it is falsy
the advertised function list is empty, function_call mode is not set, and
the system prompt is the bare node instruction with no transfer sentence. -/
theorem transfer_function_advertised (cfg : AssistantConfig)
    (messages : List ChatMessage) (streaming : Bool) :
    ((build_openai_params cfg messages streaming).functions = [transferCallDescriptor]
        ↔ cfg.forwardingPhoneNumber ≠ "") ∧
    (get_available_functions cfg = [transferCallDescriptor]
        ↔ cfg.forwardingPhoneNumber ≠ "") ∧
    (cfg.forwardingPhoneNumber = "" →
      get_available_functions cfg = [] ∧
      (build_openai_params cfg messages streaming).functions = [] ∧
      (build_openai_params cfg messages streaming).function_call_auto = false ∧
      ∀ nextPrompt, buildSystemMessage cfg nextPrompt = nextPrompt) := by
  by_cases h : cfg.forwardingPhoneNumber = ""
  · refine ⟨?_, ?_, ?_⟩
    · simp [build_openai_params, get_available_functions, h]
    · simp [get_available_functions, h]
    · intro hc
      refine ⟨by simp [get_available_functions, h],
        by simp [build_openai_params, get_available_functions, h],
        by simp [build_openai_params, get_available_functions, h], ?_⟩
      intro p
      simp [buildSystemMessage, h]
  · refine ⟨?_, ?_, fun hc => absurd hc h⟩
    · simp [build_openai_params, get_available_functions, h]
    · simp [get_available_functions, h]

def noForwardConfig : AssistantConfig :=
  { model := default_config.model, forwardingPhoneNumber := "" }

theorem transfer_function_advertised_witness :
    get_available_functions default_config = [transferCallDescriptor] ∧
    get_available_functions noForwardConfig = [] ∧
    (build_openai_params noForwardConfig [] false).functions = [] ∧
    buildSystemMessage noForwardConfig "Hi" = "Hi" := by
  refine ⟨?_, ?_, ?_, ?_⟩
  · exact (transfer_function_advertised default_config [] false).2.1.mpr (by decide)
  · exact ((transfer_function_advertised noForwardConfig [] false).2.2 rfl).1
  · exact ((transfer_function_advertised noForwardConfig [] false).2.2 rfl).2.1
  · exact ((transfer_function_advertised noForwardConfig [] false).2.2 rfl).2.2.2 "Hi"

/-- Claim C7 (confirmed): the provider message list is the computed system
message alone when the request carries no (or an empty) messages list, and
exactly the system message followed by the last caller message otherwise;
no earlier message of the history is forwarded. -/
theorem provider_message_list (systemMessage : String) :
    buildMessages systemMessage [] = [{ role := "system", content := systemMessage }] ∧
    (∀ (ms : List ChatMessage) (m : ChatMessage),
      buildMessages systemMessage (ms ++ [m])
        = [{ role := "system", content := systemMessage }, m]) := by
  constructor
  · rfl
  · intro ms m
    simp [buildMessages, List.getLast?_concat]

/-- Claim C10 (confirmed): when the current node record has no block, or a
block with no instruction, the handler still succeeds, uses the literal
default prompt, and still appends the transfer sentence when a forwarding
number is configured. -/
theorem missing_block_default_prompt (flowNodes : FlowNodes) (cfg : AssistantConfig)
    (states : CallStates) (req : ChatRequest) (cur : String) (revs : List Event)
    (node : PathwayNode)
    (hres : get_current_node_name_events flowNodes states req.callId = some (cur, revs))
    (hnode : dictLookup flowNodes cur = some node)
    (hblock : node.block = none ∨ node.block = some { instruction := none }) :
    nextPromptOf node = "No instructions available." ∧
    openai_advanced_custom_llm_route flowNodes cfg states req =
      Except.ok (revs ++ advanceEvents flowNodes req.callId node ++
        [Event.providerCall (build_openai_params cfg
          (buildMessages (buildSystemMessage cfg "No instructions available.") req.messages)
          req.stream)]) ∧
    (cfg.forwardingPhoneNumber ≠ "" →
      buildSystemMessage cfg (nextPromptOf node)
        = "No instructions available." ++ transferSentence) := by
  have hp : nextPromptOf node = "No instructions available." := by
    rcases hblock with h | h <;> simp [nextPromptOf, h]
  refine ⟨hp, ?_, ?_⟩
  · rw [route_eq flowNodes cfg states req cur revs node hres hnode, hp]
  · intro hf
    simp [buildSystemMessage, hp, hf]

def c10Node : PathwayNode := { name := "start", block := none, destinations := [] }

def c10Flow : FlowNodes := [("start", c10Node)]

def c10Req : ChatRequest := { stream := false, callId := "k", messages := [] }

theorem missing_block_default_prompt_witness :
    nextPromptOf c10Node = "No instructions available." ∧
    openai_advanced_custom_llm_route c10Flow default_config [("k", "start")] c10Req =
      Except.ok ([] ++ advanceEvents c10Flow "k" c10Node ++
        [Event.providerCall (build_openai_params default_config
          (buildMessages (buildSystemMessage default_config "No instructions available.") [])
          false)]) ∧
    buildSystemMessage default_config (nextPromptOf c10Node)
      = "No instructions available." ++ transferSentence := by
  have h := missing_block_default_prompt c10Flow default_config [("k", "start")] c10Req
      "start" [] c10Node rfl rfl (Or.inl rfl)
  exact ⟨h.1, h.2.1, h.2.2 (by decide)⟩

inductive PyError where
  | attributeError : PyError
deriving Repr, DecidableEq

structure FunctionCallDelta where
  name : Option String
  arguments : String
deriving Repr, DecidableEq

/-- One streamed chunk as accessed by generate_streaming_response:
chunk.choices[0].delta with its content and function_call attributes. -/
structure ChunkDelta where
  content : Option String
  function_call : Option FunctionCallDelta
deriving Repr, DecidableEq

/-- The SSE frame payload for a normal token fragment (line 126). -/
def contentFrame (t : String) : Json :=
  Json.obj [("choices", Json.arr [Json.obj [("delta", Json.obj [("content", Json.str t)])]])]

/-- The SSE frame payload for a detected transfer (lines 135-142). -/
def transferFrame (destination : Json) : Json :=
  Json.obj [("function_call",
    Json.obj [("name", Json.str "transferCall"),
              ("arguments", Json.obj [("destination", destination)])])]

/-- Events observable on the SSE stream: emitted frames and log records. -/
inductive StreamEvent where
  | frame (payload : Json) : StreamEvent
  | logError (msg : String) : StreamEvent

def contentEventsOf (c : ChunkDelta) : List StreamEvent :=
  match c.content with
  | some t => [StreamEvent.frame (contentFrame t)]
  | none => []

/-- The generator loop body (lines 124-145) for one chunk.  parse stands for
json.loads applied to the fragment arguments: none models a JSONDecodeError,
which is caught at line 144 and logged; a parsed non-object value makes
arguments.get at line 134 raise an uncaught AttributeError, modelled by the
second component.  Returns the events emitted for the chunk (a content frame
is yielded at line 127 before the function_call handling runs) and the
uncaught error, if any. -/
def process_chunk (parse : String → Option Json) (cfg : AssistantConfig)
    (c : ChunkDelta) : List StreamEvent × Option PyError :=
  let contentEvents := contentEventsOf c
  match c.function_call with
  | none => (contentEvents, none)
  | some fc =>
      if fc.name = some "transferCall" then
        match parse fc.arguments with
        | none =>
            (contentEvents ++ [StreamEvent.logError "Failed to parse transferCall arguments"],
             none)
        | some (Json.obj fields) =>
            (contentEvents ++ [StreamEvent.frame (transferFrame
              ((dictLookup fields "destination").getD (Json.str cfg.forwardingPhoneNumber)))],
             none)
        | some _ => (contentEvents, some PyError.attributeError)
      else (contentEvents, none)

/-- generate_streaming_response (lines 123-145): the concatenation of the
per-chunk events, stopping at the first uncaught error (events yielded
before the failing statement have already been sent). -/
def generate_streaming_response (parse : String → Option Json) (cfg : AssistantConfig) :
    List ChunkDelta → List StreamEvent × Option PyError
  | [] => ([], none)
  | c :: rest =>
      match process_chunk parse cfg c with
      | (evs, some e) => (evs, some e)
      | (evs, none) =>
          let r := generate_streaming_response parse cfg rest
          (evs ++ r.1, r.2)

/-- Claim C5, amended (corrected): for a transferCall fragment whose
arguments parse as a JSON object, exactly one function_call frame is emitted
for the fragment, carrying the parsed destination and defaulting to the
configured forwardingPhoneNumber when the object has no destination key;
for arguments that do not parse at all, no frame is emitted for the
fragment, the parse failure is logged, and the stream continues with the
following fragments. -/
theorem transfer_frame_amended (parse : String → Option Json) (cfg : AssistantConfig)
    (c : ChunkDelta) (fc : FunctionCallDelta)
    (hfc : c.function_call = some fc)
    (hname : fc.name = some "transferCall") :
    (∀ fields, parse fc.arguments = some (Json.obj fields) →
      process_chunk parse cfg c =
        (contentEventsOf c ++ [StreamEvent.frame (transferFrame
          ((dictLookup fields "destination").getD (Json.str cfg.forwardingPhoneNumber)))],
         none)) ∧
    (parse fc.arguments = none →
      process_chunk parse cfg c =
        (contentEventsOf c ++ [StreamEvent.logError "Failed to parse transferCall arguments"],
         none) ∧
      ∀ rest, generate_streaming_response parse cfg (c :: rest) =
        (contentEventsOf c ++ [StreamEvent.logError "Failed to parse transferCall arguments"]
            ++ (generate_streaming_response parse cfg rest).1,
         (generate_streaming_response parse cfg rest).2)) := by
  constructor
  · intro fields hp
    simp [process_chunk, hfc, hname, hp]
  · intro hp
    have h1 : process_chunk parse cfg c =
        (contentEventsOf c ++ [StreamEvent.logError "Failed to parse transferCall arguments"],
         none) := by
      simp [process_chunk, hfc, hname, hp]
    refine ⟨h1, ?_⟩
    intro rest
    simp [generate_streaming_response, h1, List.append_assoc]

def c5Parse : String → Option Json := fun s => if s = "[]" then some (Json.arr []) else none

def c5Chunk : ChunkDelta :=
  { content := none
    function_call := some { name := some "transferCall", arguments := "[]" } }

/-- Claim C5 counterexample: the fragment arguments "[]" parse as JSON (the
empty array), yet zero frames are emitted: arguments.get at line 134 raises
an uncaught AttributeError and the stream aborts, where the claim as stated
requires exactly one function_call frame for any fragment whose arguments
string parses as JSON. -/
theorem transfer_frame_counterexample :
    c5Parse "[]" = some (Json.arr []) ∧
    process_chunk c5Parse default_config c5Chunk = ([], some PyError.attributeError) ∧
    generate_streaming_response c5Parse default_config [c5Chunk]
      = ([], some PyError.attributeError) :=
  ⟨rfl, rfl, rfl⟩

def c5GoodArgs : String := "\x7b\"destination\": \"+15551234567\"\x7d"

def c5GoodParse : String → Option Json :=
  fun s => if s = c5GoodArgs
    then some (Json.obj [("destination", Json.str "+15551234567")]) else none

def c5GoodChunk : ChunkDelta :=
  { content := none
    function_call := some { name := some "transferCall", arguments := c5GoodArgs } }

def c5BadChunk : ChunkDelta :=
  { content := none
    function_call := some { name := some "transferCall", arguments := "not json" } }

def c5BadParse : String → Option Json := fun _ => none

theorem transfer_frame_amended_witness :
    process_chunk c5GoodParse default_config c5GoodChunk =
      ([StreamEvent.frame (transferFrame (Json.str "+15551234567"))], none) ∧
    process_chunk c5BadParse default_config c5BadChunk =
      ([StreamEvent.logError "Failed to parse transferCall arguments"], none) ∧
    generate_streaming_response c5BadParse default_config [c5BadChunk, c5GoodChunk] =
      ([StreamEvent.logError "Failed to parse transferCall arguments",
        StreamEvent.logError "Failed to parse transferCall arguments"], none) := by
  have hgood := (transfer_frame_amended c5GoodParse default_config c5GoodChunk
      { name := some "transferCall", arguments := c5GoodArgs } rfl rfl).1
      [("destination", Json.str "+15551234567")] rfl
  have hbad := (transfer_frame_amended c5BadParse default_config c5BadChunk
      { name := some "transferCall", arguments := "not json" } rfl rfl).2 rfl
  exact ⟨hgood, hbad.1, hbad.2 [c5GoodChunk]⟩

abbrev JsonDict := List (String × Json)

structure ConfigResponse where
  status : String
  message : String
  httpStatus : Nat
deriving Repr, DecidableEq

/-- The POST /config handler (lines 197-209): a Python-falsy payload (absent
or non-JSON body, or an empty object) is rejected with HTTP 400 and the
config is unchanged; otherwise the payload is shallow-merged into the config
by dict.update and the merged value is persisted.  The result is the pair of
the new config (equal to the persisted document) and the HTTP response. -/
def config (current : JsonDict) (payload : Option JsonDict) : JsonDict × ConfigResponse :=
  match payload with
  | none =>
      (current, { status := "error", message := "Invalid configuration", httpStatus := 400 })
  | some [] =>
      (current, { status := "error", message := "Invalid configuration", httpStatus := 400 })
  | some p =>
      (dict_update current p,
       { status := "success", message := "Configuration updated", httpStatus := 200 })

theorem dict_update_idem {α : Type} (p c : List (String × α))
    (hnd : (p.map Prod.fst).Nodup) :
    dict_update (dict_update c p) p = dict_update c p := by
  induction p generalizing c with
  | nil => rfl
  | cons hd tl ih =>
      obtain ⟨k, v⟩ := hd
      simp only [List.map_cons, List.nodup_cons] at hnd
      obtain ⟨hk, hnd2⟩ := hnd
      have h1 : ∀ X : List (String × α),
          dict_update X ((k, v) :: tl) = dict_update (dictInsert X k v) tl := fun X => rfl
      simp only [h1]
      have h2 : dictLookup (dict_update (dictInsert c k v) tl) k = some v := by
        rw [dictLookup_dict_update_not_mem tl (dictInsert c k v) k hk]
        exact dictLookup_dictInsert_self c k v
      rw [dictInsert_eq_self _ _ _ h2]
      exact ih (dictInsert c k v) hnd2

/-- Claim C8 (confirmed): for a nonempty well-formed payload (a JSON object,
so its top-level keys are distinct), applying the config update twice in
succession yields the same resulting (and hence persisted) config and the
same response as applying it once, the update being the shallow top-level
merge dict_update, which replaces nested objects wholesale. -/
theorem config_update_idempotent (c p : JsonDict) (hp : p ≠ [])
    (hnd : (p.map Prod.fst).Nodup) :
    (config (config c (some p)).1 (some p)).1 = (config c (some p)).1 ∧
    (config c (some p)).1 = dict_update c p ∧
    (config (config c (some p)).1 (some p)).2 = (config c (some p)).2 := by
  cases p with
  | nil => exact absurd rfl hp
  | cons kv tl =>
      refine ⟨?_, rfl, rfl⟩
      show dict_update (dict_update c (kv :: tl)) (kv :: tl) = dict_update c (kv :: tl)
      exact dict_update_idem (kv :: tl) c hnd

def c8Current : JsonDict :=
  [("forwardingPhoneNumber", Json.str "+40761983263"),
   ("model", Json.obj [("provider", Json.str "openai"), ("model", Json.str "gpt-4o")])]

def c8Payload : JsonDict :=
  [("forwardingPhoneNumber", Json.str "+15550000000"),
   ("model", Json.obj [("model", Json.str "gpt-4")])]

theorem config_update_idempotent_witness :
    (config (config c8Current (some c8Payload)).1 (some c8Payload)).1
      = (config c8Current (some c8Payload)).1 ∧
    (config c8Current (some c8Payload)).1 = dict_update c8Current c8Payload := by
  have h := config_update_idempotent c8Current c8Payload
      (List.cons_ne_nil _ _) (by simp [c8Payload])
  exact ⟨h.1, h.2.1⟩

theorem provider_message_list_witness :
    buildMessages "sys" [] = [{ role := "system", content := "sys" }] ∧
    buildMessages "sys"
        [{ role := "user", content := "first turn" }, { role := "user", content := "last turn" }]
      = [{ role := "system", content := "sys" }, { role := "user", content := "last turn" }] := by
  have h := provider_message_list "sys"
  exact ⟨h.1, h.2 [{ role := "user", content := "first turn" }]
    { role := "user", content := "last turn" }⟩
